import Mathlib

/-!
Verification of the chunking and retrieval-augmented answering pipeline of the
OCR repository (src/app/VectorDatabase/VectorDB.py and VectorDB_Route.py).

Python strings are modelled as `List Char`; Python int indices as `Int`
(negative slice indices follow CPython's adjustment rules); the fallible
OpenAI collaborator as an injected function returning `Except`; the ChromaDB
collection store as a list of named collections.  The chunking `while` loop is
modelled with explicit fuel (`Option` result, `none` = fuel exhausted), since
the source loop does not terminate on all inputs.
-/

/-- Python's whitespace test for `str.strip()` (ASCII fragment actually
reachable here: space, tab, newline, carriage return, vertical tab, form feed). -/
def pyIsSpace (c : Char) : Bool :=
  c == ' ' || c == '\t' || c == '\n' || c == '\r' || c == '\x0b' || c == '\x0c'

/-- Python `str.strip()`: drop whitespace from both ends. -/
def pyStrip (s : List Char) : List Char :=
  ((s.dropWhile pyIsSpace).reverse.dropWhile pyIsSpace).reverse

/-- CPython slice-index adjustment for a sequence of length `n`:
negative indices are shifted by `n`, then clamped into `[0, n]`. -/
def sliceIdx (n : Nat) (i : Int) : Nat :=
  if i < 0 then (i + n).toNat else min i.toNat n

/-- Python `s[a:b]` for strings. -/
def pySlice (s : List Char) (a b : Int) : List Char :=
  (s.take (sliceIdx s.length b)).drop (sliceIdx s.length a)

/-- Largest index `k` with `i ≤ k < bound` and `s[k] = c`, as an `Int`;
`-1` when there is none.  Helper for `pyRfindChar`. -/
def rfindDown (s : List Char) (c : Char) (i : Nat) : Nat → Int
  | 0 => -1
  | k + 1 => if i ≤ k ∧ s.getD k ' ' = c then (k : Int) else rfindDown s c i k

/-- Python `s.rfind(c, a, b)` for a single-character needle: highest index of
`c` inside the slice `s[a:b]`, or `-1`. -/
def pyRfindChar (s : List Char) (c : Char) (a b : Int) : Int :=
  rfindDown s c (sliceIdx s.length a) (sliceIdx s.length b)

/-- Python `sep.join(xs)`. -/
def joinSep (sep : List Char) : List (List Char) → List Char
  | [] => []
  | [x] => x
  | x :: y :: rest => x ++ sep ++ joinSep sep (y :: rest)

/-- Python `needle in hay` substring containment. -/
def containsSub (hay needle : List Char) : Bool :=
  if needle.isPrefixOf hay then true
  else
    match hay with
    | [] => needle.isEmpty
    | _ :: t => containsSub t needle

/-- One chunk record produced by `TextChunker.chunk_text`
(content, offsets, running index). -/
structure ChunkRec where
  chunk_index : Nat
  content : List Char
  start_char : Int
  end_char : Int
deriving DecidableEq, Repr

/-- The boundary-aware cut position of the window starting at `start`
(`end` after the three `rfind` adjustments in `chunk_text`). -/
def boundaryEnd (text : List Char) (chunk_size : Nat) (start : Int) : Int :=
  let n : Int := text.length
  let end0 : Int := start + chunk_size
  if end0 < n then
    let lastPeriod := pyRfindChar text '.' start end0
    let lastNewline := pyRfindChar text '\n' start end0
    let lastSpace := pyRfindChar text ' ' start end0
    let half : Int := start + (chunk_size / 2 : Nat)
    if half < lastPeriod then lastPeriod + 1
    else if half < lastNewline then lastNewline + 1
    else if half < lastSpace then lastSpace + 1
    else end0
  else end0

/-- `text[start:end].strip()` for the adjusted window end. -/
def chunkContent (text : List Char) (chunk_size : Nat) (start : Int) : List Char :=
  pyStrip (pySlice text start (boundaryEnd text chunk_size start))

/-- The reassignment `start = end - chunk_overlap if end < len(text) else end`
performed at the bottom of each loop iteration. -/
def nextStart (text : List Char) (chunk_size chunk_overlap : Nat) (start : Int) : Int :=
  if boundaryEnd text chunk_size start < (text.length : Int) then
    boundaryEnd text chunk_size start - (chunk_overlap : Int)
  else boundaryEnd text chunk_size start

/-- The `while start < len(text)` loop of `TextChunker.chunk_text`, with fuel.
State: `start` (Python int, may go negative), running `chunk_index`, and the
accumulated chunk list.  `none` means the fuel ran out before the loop exited. -/
def chunkLoop (text : List Char) (chunk_size chunk_overlap : Nat) :
    Nat → Int → Nat → List ChunkRec → Option (List ChunkRec)
  | 0, _, _, _ => none
  | fuel + 1, start, cidx, acc =>
    if start < (text.length : Int) then
      let e := boundaryEnd text chunk_size start
      let content := chunkContent text chunk_size start
      let acc2 := if content = [] then acc else acc ++ [⟨cidx, content, start, e⟩]
      let cidx2 := if content = [] then cidx else cidx + 1
      let start2 := nextStart text chunk_size chunk_overlap start
      if (text.length : Int) ≤ start2 ∨ ((text.length : Int) ≤ e ∧ content ≠ []) then
        some acc2
      else
        chunkLoop text chunk_size chunk_overlap fuel start2 cidx2 acc2
    else some acc

/-- `TextChunker.chunk_text(text, chunk_size, chunk_overlap)`, fuelled. -/
def chunk_text (text : List Char) (chunk_size chunk_overlap : Nat) (fuel : Nat) :
    Option (List ChunkRec) :=
  if text.length = 0 then some [] else chunkLoop text chunk_size chunk_overlap fuel 0 0 []

/-- The chunking loop runs forever on this input: no fuel suffices. -/
def ChunkTextDiverges (text : List Char) (chunk_size chunk_overlap : Nat) : Prop :=
  ∀ fuel, chunk_text text chunk_size chunk_overlap fuel = none

/-- Adversarial text for the termination claims: a period just past the
half-window mark and a large overlap drive `start` negative. -/
def exPeriodText : List Char := "abcdef.ghijklmnop".toList

/-- A whitespace-only text (six spaces, a newline, five spaces) on which the
chunking loop cycles with `chunk_size = 10`, `chunk_overlap = 9`. -/
def exWsText : List Char := "      \n     ".toList

example : chunk_text ("abc".toList) 10 5 1 = some [⟨0, ("abc".toList), 0, 10⟩] := by decide

/-- Unfolding: the loop exits as soon as `start < len(text)` fails. -/
lemma chunkLoop_succ_done (text : List Char) (cs ov fuel : Nat) (start : Int) (cidx : Nat)
    (acc : List ChunkRec) (h1 : ¬ start < (text.length : Int)) :
    chunkLoop text cs ov (fuel + 1) start cidx acc = some acc := by
  simp only [chunkLoop]
  rw [if_neg h1]

/-- Unfolding: an iteration that emits a chunk and continues looping. -/
lemma chunkLoop_succ_emit (text : List Char) (cs ov fuel : Nat) (start : Int) (cidx : Nat)
    (acc : List ChunkRec)
    (h1 : start < (text.length : Int))
    (h2 : ¬ ((text.length : Int) ≤ nextStart text cs ov start ∨
      ((text.length : Int) ≤ boundaryEnd text cs start ∧ chunkContent text cs start ≠ [])))
    (h3 : chunkContent text cs start ≠ []) :
    chunkLoop text cs ov (fuel + 1) start cidx acc =
      chunkLoop text cs ov fuel (nextStart text cs ov start) (cidx + 1)
        (acc ++ [⟨cidx, chunkContent text cs start, start, boundaryEnd text cs start⟩]) := by
  simp only [chunkLoop]
  rw [if_pos h1, if_neg h2]
  simp only [if_neg h3]

/-- Unfolding: an iteration whose stripped window is empty and that keeps looping. -/
lemma chunkLoop_succ_skip (text : List Char) (cs ov fuel : Nat) (start : Int) (cidx : Nat)
    (acc : List ChunkRec)
    (h1 : start < (text.length : Int))
    (h2 : ¬ ((text.length : Int) ≤ nextStart text cs ov start ∨
      ((text.length : Int) ≤ boundaryEnd text cs start ∧ chunkContent text cs start ≠ [])))
    (h3 : chunkContent text cs start = []) :
    chunkLoop text cs ov (fuel + 1) start cidx acc =
      chunkLoop text cs ov fuel (nextStart text cs ov start) cidx acc := by
  simp only [chunkLoop]
  rw [if_pos h1, if_neg h2]
  simp only [if_pos h3]

/-- Unfolding: an iteration that hits the `break`. -/
lemma chunkLoop_succ_break (text : List Char) (cs ov fuel : Nat) (start : Int) (cidx : Nat)
    (acc : List ChunkRec)
    (h1 : start < (text.length : Int))
    (h2 : (text.length : Int) ≤ nextStart text cs ov start ∨
      ((text.length : Int) ≤ boundaryEnd text cs start ∧ chunkContent text cs start ≠ [])) :
    chunkLoop text cs ov (fuel + 1) start cidx acc =
      some (if chunkContent text cs start = [] then acc
        else acc ++ [⟨cidx, chunkContent text cs start, start, boundaryEnd text cs start⟩]) := by
  simp only [chunkLoop]
  rw [if_pos h1, if_pos h2]

/-- On `exPeriodText` with `chunk_size = 10`, `chunk_overlap = 9`, the loop
state cycles `0 → -2 → -1 → 0` forever (a chunk is re-emitted at every
`start = 0` visit), so no fuel makes it finish. -/
lemma exPeriod_cycle : ∀ fuel,
    (∀ cidx acc, chunkLoop exPeriodText 10 9 fuel 0 cidx acc = none) ∧
    (∀ cidx acc, chunkLoop exPeriodText 10 9 fuel (-2) cidx acc = none) ∧
    (∀ cidx acc, chunkLoop exPeriodText 10 9 fuel (-1) cidx acc = none) := by
  intro fuel
  induction fuel with
  | zero => exact ⟨fun _ _ => rfl, fun _ _ => rfl, fun _ _ => rfl⟩
  | succ m ih =>
    refine ⟨fun cidx acc => ?_, fun cidx acc => ?_, fun cidx acc => ?_⟩
    · rw [chunkLoop_succ_emit exPeriodText 10 9 m 0 cidx acc (by decide) (by decide) (by decide)]
      rw [show nextStart exPeriodText 10 9 0 = -2 from by decide]
      exact ih.2.1 _ _
    · rw [chunkLoop_succ_skip exPeriodText 10 9 m (-2) cidx acc (by decide) (by decide) (by decide)]
      rw [show nextStart exPeriodText 10 9 (-2) = -1 from by decide]
      exact ih.2.2 _ _
    · rw [chunkLoop_succ_skip exPeriodText 10 9 m (-1) cidx acc (by decide) (by decide) (by decide)]
      rw [show nextStart exPeriodText 10 9 (-1) = 0 from by decide]
      exact ih.1 _ _

/-- On `exWsText` (whitespace only) with `chunk_size = 10`, `chunk_overlap = 9`,
the loop state cycles `0 → -2 → -1 → 0` forever without ever emitting. -/
lemma exWs_cycle : ∀ fuel,
    (∀ cidx acc, chunkLoop exWsText 10 9 fuel 0 cidx acc = none) ∧
    (∀ cidx acc, chunkLoop exWsText 10 9 fuel (-2) cidx acc = none) ∧
    (∀ cidx acc, chunkLoop exWsText 10 9 fuel (-1) cidx acc = none) := by
  intro fuel
  induction fuel with
  | zero => exact ⟨fun _ _ => rfl, fun _ _ => rfl, fun _ _ => rfl⟩
  | succ m ih =>
    refine ⟨fun cidx acc => ?_, fun cidx acc => ?_, fun cidx acc => ?_⟩
    · rw [chunkLoop_succ_skip exWsText 10 9 m 0 cidx acc (by decide) (by decide) (by decide)]
      rw [show nextStart exWsText 10 9 0 = -2 from by decide]
      exact ih.2.1 _ _
    · rw [chunkLoop_succ_skip exWsText 10 9 m (-2) cidx acc (by decide) (by decide) (by decide)]
      rw [show nextStart exWsText 10 9 (-2) = -1 from by decide]
      exact ih.2.2 _ _
    · rw [chunkLoop_succ_skip exWsText 10 9 m (-1) cidx acc (by decide) (by decide) (by decide)]
      rw [show nextStart exWsText 10 9 (-1) = 0 from by decide]
      exact ih.1 _ _

lemma chunk_text_diverges_exPeriod : ChunkTextDiverges exPeriodText 10 9 := by
  intro fuel
  unfold chunk_text
  rw [if_neg (by decide)]
  exact (exPeriod_cycle fuel).1 0 []

lemma chunk_text_diverges_exWs : ChunkTextDiverges exWsText 10 9 := by
  intro fuel
  unfold chunk_text
  rw [if_neg (by decide)]
  exact (exWs_cycle fuel).1 0 []

lemma rfindDown_spec (s : List Char) (c : Char) (i : Nat) : ∀ j : Nat,
    rfindDown s c i j = -1 ∨
      (0 ≤ rfindDown s c i j ∧ (i : Int) ≤ rfindDown s c i j ∧ rfindDown s c i j < (j : Int)) := by
  intro j
  induction j with
  | zero => exact Or.inl rfl
  | succ k ih =>
    by_cases h : i ≤ k ∧ s.getD k ' ' = c
    · right
      simp only [rfindDown, if_pos h]
      refine ⟨by omega, by exact_mod_cast h.1, by omega⟩
    · simp only [rfindDown, if_neg h]
      rcases ih with h1 | h1
      · exact Or.inl h1
      · exact Or.inr ⟨h1.1, h1.2.1, by omega⟩

lemma rfindDown_empty (s : List Char) (c : Char) (i : Nat) :
    ∀ j : Nat, j ≤ i → rfindDown s c i j = -1 := by
  intro j
  induction j with
  | zero => intro _; rfl
  | succ k ih =>
    intro hj
    simp only [rfindDown]
    rw [if_neg (fun hcon => absurd hcon.1 (by omega))]
    exact ih (by omega)

lemma sliceIdx_le (n : Nat) (i : Int) : sliceIdx n i ≤ n := by
  unfold sliceIdx
  split <;> omega

lemma pyRfindChar_spec (s : List Char) (c : Char) (a b : Int) :
    pyRfindChar s c a b = -1 ∨
      (0 ≤ pyRfindChar s c a b ∧ pyRfindChar s c a b < (s.length : Int)) := by
  unfold pyRfindChar
  rcases rfindDown_spec s c (sliceIdx s.length a) (sliceIdx s.length b) with h | h
  · exact Or.inl h
  · right
    refine ⟨h.1, lt_of_lt_of_le h.2.2 ?_⟩
    exact_mod_cast sliceIdx_le s.length b

lemma pySlice_eq_nil_of_le (s : List Char) (a b : Int)
    (h : sliceIdx s.length b ≤ sliceIdx s.length a) : pySlice s a b = [] := by
  unfold pySlice
  apply List.drop_eq_nil_of_le
  rw [List.length_take]
  omega

lemma boundaryEnd_lower (text : List Char) (cs : Nat) (start : Int) (hcs : 0 < cs) :
    start < boundaryEnd text cs start := by
  simp only [boundaryEnd]
  split_ifs <;> omega

lemma boundaryEnd_upper (text : List Char) (cs : Nat) (start : Int) :
    boundaryEnd text cs start ≤ max (text.length : Int) (start + cs) := by
  simp only [boundaryEnd]
  have hp := pyRfindChar_spec text '.' start (start + (cs : Int))
  have hn := pyRfindChar_spec text '\n' start (start + (cs : Int))
  have hs := pyRfindChar_spec text ' ' start (start + (cs : Int))
  split_ifs <;> omega

lemma boundaryEnd_nonneg (text : List Char) (cs : Nat) (start : Int)
    (h : 0 ≤ start + (cs : Int)) : 0 ≤ boundaryEnd text cs start := by
  simp only [boundaryEnd]
  have hp := pyRfindChar_spec text '.' start (start + (cs : Int))
  have hn := pyRfindChar_spec text '\n' start (start + (cs : Int))
  have hs := pyRfindChar_spec text ' ' start (start + (cs : Int))
  split_ifs <;> omega

/-- When `start` has gone negative (reachable only with `chunk_size ≤ len(text)`
and `start ≥ -overlap`), CPython's negative-index adjustment makes the window
slice empty, so no chunk is emitted on such an iteration. -/
lemma chunkContent_neg_empty (text : List Char) (cs ov : Nat) (start : Int)
    (hn : (cs : Int) ≤ (text.length : Int)) (hlow : -(ov : Int) ≤ start)
    (hov : ov < cs) (hneg : start < 0) :
    chunkContent text cs start = [] := by
  have hij : sliceIdx text.length (start + (cs : Int)) ≤ sliceIdx text.length start := by
    unfold sliceIdx
    rw [if_pos hneg]
    rcases lt_or_le (start + (cs : Int)) 0 with hb | hb
    · rw [if_pos hb]; omega
    · rw [if_neg (not_lt.mpr hb)]; omega
  have hempty : ∀ c, pyRfindChar text c start (start + (cs : Int)) = -1 := by
    intro c
    unfold pyRfindChar
    exact rfindDown_empty text c _ _ hij
  have he0n : start + (cs : Int) < (text.length : Int) := by omega
  have hbe : boundaryEnd text cs start = 0 ∨ boundaryEnd text cs start = start + (cs : Int) := by
    simp only [boundaryEnd]
    rw [if_pos he0n, hempty '.', hempty '\n', hempty ' ']
    split_ifs <;> omega
  unfold chunkContent
  rcases hbe with h | h <;> rw [h]
  · rw [pySlice_eq_nil_of_le text start 0 (by unfold sliceIdx; split <;> omega)]
    rfl
  · rw [pySlice_eq_nil_of_le text start (start + (cs : Int)) hij]
    rfl

/-- Offset well-formedness of an emitted chunk:
`0 ≤ start_char < end_char`, `start_char < len(text)`, and
`end_char ≤ max(len(text), start_char + chunk_size)`. -/
def GoodChunk (n cs : Nat) (c : ChunkRec) : Prop :=
  0 ≤ c.start_char ∧ c.start_char < c.end_char ∧ c.start_char < (n : Int) ∧
    c.end_char ≤ max (n : Int) (c.start_char + cs)

lemma chunkLoop_good (text : List Char) (cs ov : Nat) (hcs : 0 < cs) (hov : ov < cs) :
    ∀ fuel : Nat, ∀ start : Int, ∀ cidx : Nat, ∀ acc chunks : List ChunkRec,
      -(ov : Int) ≤ start →
      (start = 0 ∨ (cs : Int) ≤ (text.length : Int)) →
      (∀ c ∈ acc, GoodChunk text.length cs c) →
      chunkLoop text cs ov fuel start cidx acc = some chunks →
      ∀ c ∈ chunks, GoodChunk text.length cs c := by
  intro fuel
  induction fuel with
  | zero => intro start cidx acc chunks _ _ _ h; exact absurd h (by simp [chunkLoop])
  | succ m ih =>
    intro start cidx acc chunks hlow hinv hacc h
    by_cases h1 : start < (text.length : Int)
    case neg =>
      rw [chunkLoop_succ_done _ _ _ _ _ _ _ h1] at h
      injection h with h
      subst h
      exact hacc
    case pos =>
    have hgoodnew : chunkContent text cs start ≠ [] →
        GoodChunk text.length cs ⟨cidx, chunkContent text cs start, start, boundaryEnd text cs start⟩ := by
      intro hne
      have hs0 : 0 ≤ start := by
        by_contra hneg
        push_neg at hneg
        rcases hinv with rfl | hn
        · omega
        · exact hne (chunkContent_neg_empty text cs ov start hn hlow hov hneg)
      exact ⟨hs0, boundaryEnd_lower text cs start hcs, h1, boundaryEnd_upper text cs start⟩
    by_cases h2 : (text.length : Int) ≤ nextStart text cs ov start ∨
        ((text.length : Int) ≤ boundaryEnd text cs start ∧ chunkContent text cs start ≠ [])
    · rw [chunkLoop_succ_break _ _ _ _ _ _ _ h1 h2] at h
      injection h with h
      subst h
      intro c hc
      by_cases h3 : chunkContent text cs start = []
      · rw [if_pos h3] at hc
        exact hacc c hc
      · rw [if_neg h3] at hc
        rcases List.mem_append.mp hc with hc | hc
        · exact hacc c hc
        · rcases List.mem_singleton.mp hc with rfl
          exact hgoodnew h3
    · have hnext_low : -(ov : Int) ≤ nextStart text cs ov start := by
        unfold nextStart
        split
        · have := boundaryEnd_nonneg text cs start (by omega)
          omega
        · have h0 : (0 : Int) ≤ (text.length : Int) := by positivity
          omega
      have hnext_inv : nextStart text cs ov start = 0 ∨ (cs : Int) ≤ (text.length : Int) := by
        rcases hinv with rfl | hn
        · right
          push_neg at h2
          have he : boundaryEnd text cs 0 < (text.length : Int) := by
            by_contra hge
            push_neg at hge
            have heq : nextStart text cs ov 0 = boundaryEnd text cs 0 := by
              unfold nextStart
              rw [if_neg (not_lt.mpr hge)]
            omega
          by_contra hlt
          push_neg at hlt
          have : boundaryEnd text cs 0 = 0 + (cs : Int) := by
            simp only [boundaryEnd]
            rw [if_neg (by omega)]
          omega
        · exact Or.inr hn
      by_cases h3 : chunkContent text cs start = []
      · rw [chunkLoop_succ_skip _ _ _ _ _ _ _ h1 h2 h3] at h
        exact ih _ _ _ _ hnext_low hnext_inv hacc h
      · rw [chunkLoop_succ_emit _ _ _ _ _ _ _ h1 h2 h3] at h
        refine ih _ _ _ _ hnext_low hnext_inv ?_ h
        intro c hc
        rcases List.mem_append.mp hc with hc | hc
        · exact hacc c hc
        · rcases List.mem_singleton.mp hc with rfl
          exact hgoodnew h3

lemma pyStrip_eq_nil (s : List Char) (h : ∀ c ∈ s, pyIsSpace c) : pyStrip s = [] := by
  unfold pyStrip
  rw [List.dropWhile_eq_nil_iff.mpr h]
  rfl

lemma mem_of_mem_pySlice (s : List Char) (a b : Int) (c : Char) (hc : c ∈ pySlice s a b) :
    c ∈ s := by
  unfold pySlice at hc
  exact (List.Sublist.trans (List.drop_sublist _ _) (List.take_sublist _ _)).mem hc

/-- On whitespace-only text every window strips to the empty string. -/
lemma chunkContent_ws (text : List Char) (cs : Nat) (hws : ∀ c ∈ text, pyIsSpace c)
    (start : Int) : chunkContent text cs start = [] := by
  unfold chunkContent
  exact pyStrip_eq_nil _ (fun c hc => hws c (mem_of_mem_pySlice text _ _ c hc))

/-- On whitespace-only text the loop never emits a chunk, so if it terminates
it returns the empty list. -/
lemma chunkLoop_ws (text : List Char) (cs ov : Nat) (hws : ∀ c ∈ text, pyIsSpace c) :
    ∀ fuel : Nat, ∀ start : Int, ∀ cidx : Nat, ∀ chunks : List ChunkRec,
      chunkLoop text cs ov fuel start cidx [] = some chunks → chunks = [] := by
  intro fuel
  induction fuel with
  | zero => intro start cidx chunks h; exact absurd h (by simp [chunkLoop])
  | succ m ih =>
    intro start cidx chunks h
    by_cases h1 : start < (text.length : Int)
    · by_cases h2 : (text.length : Int) ≤ nextStart text cs ov start ∨
          ((text.length : Int) ≤ boundaryEnd text cs start ∧ chunkContent text cs start ≠ [])
      · rw [chunkLoop_succ_break _ _ _ _ _ _ _ h1 h2] at h
        rw [if_pos (chunkContent_ws text cs hws start)] at h
        injection h with h
        exact h.symm
      · rw [chunkLoop_succ_skip _ _ _ _ _ _ _ h1 h2 (chunkContent_ws text cs hws start)] at h
        exact ih _ _ _ h
    · rw [chunkLoop_succ_done _ _ _ _ _ _ _ h1] at h
      injection h with h
      exact h.symm

/-- Whenever `chunk_text` terminates on whitespace-only (or empty) text, it
returns the empty chunk list. -/
lemma chunk_text_ws (text : List Char) (cs ov fuel : Nat) (chunks : List ChunkRec)
    (hws : ∀ c ∈ text, pyIsSpace c) (h : chunk_text text cs ov fuel = some chunks) :
    chunks = [] := by
  unfold chunk_text at h
  by_cases h0 : text.length = 0
  · rw [if_pos h0] at h
    injection h with h
    exact h.symm
  · rw [if_neg h0] at h
    exact chunkLoop_ws text cs ov hws fuel 0 0 chunks h

lemma chunkLoop_indices (text : List Char) (cs ov : Nat) :
    ∀ fuel : Nat, ∀ start : Int, ∀ cidx : Nat, ∀ acc chunks : List ChunkRec,
      acc.map ChunkRec.chunk_index = List.range cidx →
      acc.length = cidx →
      chunkLoop text cs ov fuel start cidx acc = some chunks →
      chunks.map ChunkRec.chunk_index = List.range chunks.length := by
  intro fuel
  induction fuel with
  | zero => intro start cidx acc chunks _ _ h; exact absurd h (by simp [chunkLoop])
  | succ m ih =>
    intro start cidx acc chunks hmap hlen h
    by_cases h1 : start < (text.length : Int)
    case neg =>
      rw [chunkLoop_succ_done _ _ _ _ _ _ _ h1] at h
      injection h with h
      subst h
      rw [hmap, hlen]
    case pos =>
    by_cases h2 : (text.length : Int) ≤ nextStart text cs ov start ∨
        ((text.length : Int) ≤ boundaryEnd text cs start ∧ chunkContent text cs start ≠ [])
    · rw [chunkLoop_succ_break _ _ _ _ _ _ _ h1 h2] at h
      injection h with h
      subst h
      by_cases h3 : chunkContent text cs start = []
      · rw [if_pos h3, hmap, hlen]
      · rw [if_neg h3]
        simp [List.map_append, hmap, hlen, List.range_succ]
    · by_cases h3 : chunkContent text cs start = []
      · rw [chunkLoop_succ_skip _ _ _ _ _ _ _ h1 h2 h3] at h
        exact ih _ _ _ _ hmap hlen h
      · rw [chunkLoop_succ_emit _ _ _ _ _ _ _ h1 h2 h3] at h
        refine ih _ _ _ _ ?_ ?_ h
        · simp [List.map_append, hmap, hlen, List.range_succ]
        · simp [hlen]
example : boundaryEnd exPeriodText 10 0 = 7 := by decide
example : chunkContent exPeriodText 10 0 = ("abcdef.".toList) := by decide
example : boundaryEnd exPeriodText 10 (-2) = 8 := by decide
example : chunkContent exPeriodText 10 (-2) = [] := by decide
example : boundaryEnd exPeriodText 10 (-1) = 9 := by decide
example : boundaryEnd exWsText 10 0 = 7 := by decide
example : chunkContent exWsText 10 0 = [] := by decide
example : boundaryEnd exWsText 10 (-2) = 8 := by decide
example : boundaryEnd exWsText 10 (-1) = 9 := by decide

/-- Claim C1 (code_bug): the spec requires `TextChunker.chunk_text` to
terminate for every non-empty text and valid `chunk_size > 0`,
`0 ≤ chunk_overlap < chunk_size`, with `start` advancing by at least one
character per iteration.  The code violates this: on `exPeriodText`
(non-empty) with `chunk_size = 10`, `chunk_overlap = 9` — valid parameters —
the boundary cut at the period makes `start = end - overlap` negative and the
loop cycles `0 → -2 → -1 → 0` forever, so no amount of fuel lets it return. -/
theorem chunk_text_termination_claim_fails :
    exPeriodText ≠ [] ∧ 0 < 10 ∧ 9 < 10 ∧ ChunkTextDiverges exPeriodText 10 9 :=
  ⟨by decide, by decide, by decide, chunk_text_diverges_exPeriod⟩

/-- Claim C2 counterexample: chunking `"abc"` with `chunk_size = 10`,
`chunk_overlap = 5` (valid parameters) emits a chunk whose recorded
`end_char = 10` exceeds `len(text) = 3`, refuting
`end_char ≤ len(text)` as stated. -/
theorem chunk_text_end_char_exceeds_length :
    chunk_text ("abc".toList) 10 5 1 = some [⟨0, ("abc".toList), 0, 10⟩] ∧
      ((("abc".toList).length : Int) < 10) :=
  ⟨by decide, by decide⟩

/-- Claim C2 (amended): every chunk emitted by a terminating run of
`TextChunker.chunk_text` with valid parameters satisfies
`0 ≤ start_char < end_char`, `start_char < len(text)`, and
`end_char ≤ max(len(text), start_char + chunk_size)`; the bound
`end_char ≤ len(text)` of the original claim fails for the final chunk,
whose recorded end is the unclamped `start + chunk_size`. -/
theorem chunk_text_offset_bounds (text : List Char) (cs ov fuel : Nat)
    (chunks : List ChunkRec) (c : ChunkRec) (hcs : 0 < cs) (hov : ov < cs)
    (h : chunk_text text cs ov fuel = some chunks) (hc : c ∈ chunks) :
    0 ≤ c.start_char ∧ c.start_char < c.end_char ∧ c.start_char < (text.length : Int) ∧
      c.end_char ≤ max (text.length : Int) (c.start_char + cs) := by
  unfold chunk_text at h
  by_cases h0 : text.length = 0
  · rw [if_pos h0] at h
    injection h with h
    subst h
    exact absurd hc (List.not_mem_nil c)
  · rw [if_neg h0] at h
    exact chunkLoop_good text cs ov hcs hov fuel 0 0 [] chunks (by omega) (Or.inl rfl)
      (fun c hc => absurd hc (List.not_mem_nil c)) h c hc

/-- Witness for the amended C2 theorem at a concrete input. -/
theorem chunk_text_offset_bounds_witness :
    0 ≤ (0 : Int) ∧ (0 : Int) < 10 ∧ (0 : Int) < (("abc".toList).length : Int) ∧
      (10 : Int) ≤ max (("abc".toList).length : Int) ((0 : Int) + (10 : Nat)) :=
  chunk_text_offset_bounds ("abc".toList) 10 5 1 [⟨0, ("abc".toList), 0, 10⟩]
    ⟨0, ("abc".toList), 0, 10⟩ (by decide) (by decide) (by decide) (by decide)

/-- Claim C9: `TextChunker.chunk_text` is deterministic — equal inputs
(including equal fuel in this model) give equal chunk sequences — and the
`chunk_index` values of a terminating run form the contiguous sequence
`0, 1, …, n-1`. -/
theorem chunk_text_deterministic_contiguous (t1 t2 : List Char)
    (cs1 cs2 ov1 ov2 f1 f2 : Nat) (chunks : List ChunkRec)
    (ht : t1 = t2) (hcs : cs1 = cs2) (hov : ov1 = ov2) (hf : f1 = f2)
    (h : chunk_text t1 cs1 ov1 f1 = some chunks) :
    chunk_text t1 cs1 ov1 f1 = chunk_text t2 cs2 ov2 f2 ∧
      chunks.map ChunkRec.chunk_index = List.range chunks.length := by
  subst ht hcs hov hf
  refine ⟨rfl, ?_⟩
  unfold chunk_text at h
  by_cases h0 : t1.length = 0
  · rw [if_pos h0] at h
    injection h with h
    subst h
    rfl
  · rw [if_neg h0] at h
    exact chunkLoop_indices t1 cs1 ov1 f1 0 0 [] chunks rfl rfl h

/-- Witness for C9 at a concrete input. -/
theorem chunk_text_deterministic_contiguous_witness :
    chunk_text ("abc".toList) 10 5 1 = chunk_text ("abc".toList) 10 5 1 ∧
      ([⟨0, ("abc".toList), 0, 10⟩] : List ChunkRec).map ChunkRec.chunk_index =
        List.range ([(⟨0, ("abc".toList), 0, 10⟩ : ChunkRec)] : List ChunkRec).length :=
  chunk_text_deterministic_contiguous ("abc".toList) ("abc".toList) 10 10 5 5 1 1
    [⟨0, ("abc".toList), 0, 10⟩] rfl rfl rfl rfl (by decide)

/-- A chunk's metadata record, dict-like with optional keys (`{}` when the
index collaborator returns no metadata).  `extra` carries the optional
caller-supplied metadata merged in by `add_document`. -/
structure ChunkMeta where
  filename : Option (List Char)
  chunk_index : Option Nat
  start_char : Option Int
  end_char : Option Int
  extra : List (List Char × List Char)
deriving DecidableEq, Repr

/-- A record persisted in a ChromaDB collection: id, document text, metadata. -/
structure StoredChunk where
  id : List Char
  document : List Char
  metadata : ChunkMeta
deriving DecidableEq, Repr

/-- A named ChromaDB collection. -/
structure DBCollection where
  name : List Char
  records : List StoredChunk
deriving DecidableEq, Repr

/-- `client.get_collection(name)`: the first collection with this name, if any
(the `try/except` around it is modelled by the `Option`). -/
def getCollection (store : List DBCollection) (name : List Char) : Option DBCollection :=
  store.find? (fun c => decide (c.name = name))

/-- `client.get_or_create_collection(name)` effect on the store. -/
def getOrCreate (store : List DBCollection) (name : List Char) : List DBCollection :=
  match getCollection store name with
  | some _ => store
  | none => store ++ [⟨name, []⟩]

/-- `collection.add(ids, documents, metadatas)` effect on the store. -/
def collAdd (store : List DBCollection) (name : List Char) (recs : List StoredChunk) :
    List DBCollection :=
  store.map (fun c => if c.name = name then ⟨c.name, c.records ++ recs⟩ else c)

/-- The per-chunk info dict built by `VectorDBService.add_document`. -/
structure AddChunkInfo where
  chunk_id : List Char
  chunk_index : Nat
  content : List Char
  start_char : Int
  end_char : Int
  metadata : ChunkMeta
deriving DecidableEq, Repr

/-- `VectorDBService.add_document`: chunk the text, then insert every chunk
into the (created-on-demand) collection and return
`(total_chunks, chunk_infos)`.  The store is threaded explicitly; `idGen`
abstracts `_generate_document_id` (uuid4/md5, a fresh opaque id per
chunk_index); `none` propagates non-termination of the chunking loop. -/
def add_document (idGen : Nat → List Char) (text filename : List Char)
    (collection_name : List Char) (chunk_size chunk_overlap : Nat)
    (metadata : List (List Char × List Char)) (fuel : Nat)
    (store : List DBCollection) :
    Option (List DBCollection × Nat × List AddChunkInfo) :=
  match chunk_text text chunk_size chunk_overlap fuel with
  | none => none
  | some chunks =>
    if chunks = [] then some (store, 0, [])
    else
      let infos := chunks.map (fun c =>
        ⟨idGen c.chunk_index, c.chunk_index, c.content, c.start_char, c.end_char,
          ⟨some filename, some c.chunk_index, some c.start_char, some c.end_char, metadata⟩⟩)
      let recs := infos.map (fun i => (⟨i.chunk_id, i.content, i.metadata⟩ : StoredChunk))
      some (collAdd (getOrCreate store collection_name) collection_name recs,
        chunks.length, infos)

/-- `add_document` never returns on this whitespace-only text with these
valid parameters, because the chunking loop diverges. -/
def AddDocumentDiverges (idGen : Nat → List Char) (text filename collection_name : List Char)
    (chunk_size chunk_overlap : Nat) (metadata : List (List Char × List Char))
    (store : List DBCollection) : Prop :=
  ∀ fuel, add_document idGen text filename collection_name chunk_size chunk_overlap
    metadata fuel store = none

/-- The raw dict returned by `collection.query(query_texts=[q], n_results=k)`:
lists-of-lists aligned by position (one inner list per query text; `None`
fields are modelled as `[]`, which is equally falsy in the source's tests). -/
structure RawQueryOut where
  ids : List (List (List Char))
  documents : List (List (List Char))
  distances : List (List Rat)
  metadatas : List (List ChunkMeta)

/-- One entry of `VectorDBService.query_documents`'s result list. -/
structure QueryResult where
  chunk_id : List Char
  content : List Char
  score : Rat
  metadata : ChunkMeta
deriving DecidableEq, Repr

/-- `VectorDBService.query_documents`: `[]` when the collection is missing
(the `except` branch); otherwise convert the collaborator's raw output,
turning each distance into a `1 - distance` score.  `search` abstracts the
ChromaDB nearest-neighbour engine. -/
def query_documents (search : List Char → Nat → DBCollection → RawQueryOut)
    (store : List DBCollection) (query : List Char) (collection_name : List Char)
    (top_k : Nat) : List QueryResult :=
  match getCollection store collection_name with
  | none => []
  | some coll =>
    let results := search query top_k coll
    match results.ids with
    | [] => []
    | ids0 :: _ =>
      if ids0 = [] then []
      else
        (List.range ids0.length).map (fun i =>
          { chunk_id := ids0.getD i []
            content :=
              match results.documents with
              | [] => []
              | d0 :: _ => d0.getD i []
            score :=
              match results.distances with
              | [] => 0
              | dist0 :: _ => 1 - dist0.getD i 0
            metadata :=
              match results.metadatas with
              | [] => ⟨none, none, none, none, []⟩
              | m0 :: _ => m0.getD i ⟨none, none, none, none, []⟩ })

/-- `if document_id:` / `elif filename:` — Python truthiness of an optional
string (false for `None` and for the empty string). -/
def pyTruthy : Option (List Char) → Bool
  | none => false
  | some s => !s.isEmpty

/-- `collection.delete(ids=[...])` effect. -/
def collDeleteIds (c : DBCollection) (ids : List (List Char)) : DBCollection :=
  ⟨c.name, c.records.filter (fun r => !(ids.contains r.id))⟩

/-- `VectorDBService.delete_document`: 0 when the collection is missing; with
a (truthy) `document_id`, delete that id and return 1 unconditionally; else
with a (truthy) `filename`, delete every chunk whose metadata filename
matches and return how many there were; else 0. -/
def delete_document (store : List DBCollection) (collection_name : List Char)
    (document_id : Option (List Char)) (filename : Option (List Char)) :
    List DBCollection × Nat :=
  match getCollection store collection_name with
  | none => (store, 0)
  | some coll =>
    if pyTruthy document_id then
      (store.map (fun c => if c.name = collection_name
        then collDeleteIds c [document_id.getD []] else c), 1)
    else if pyTruthy filename then
      let matched := coll.records.filter
        (fun r => decide (r.metadata.filename = some (filename.getD [])))
      if matched ≠ [] then
        (store.map (fun c => if c.name = collection_name
          then collDeleteIds c (matched.map StoredChunk.id) else c), matched.length)
      else (store, 0)
    else (store, 0)

/-- One entry of the `sources` list built by `answer_question`. -/
structure SourceEntry where
  content : List Char
  filename : List Char
  score : Rat
deriving DecidableEq, Repr

/-- The dict returned by `VectorDBService.answer_question`. -/
structure AnswerOut where
  has_answer : Bool
  answer : List Char
  sources : List SourceEntry
deriving DecidableEq, Repr

/-- `VectorDBService.answer_question`: retrieve `top_k` chunks, and either
report no information (empty retrieval) or build the context blob and
sources and synthesise an answer.  `genAnswer` abstracts the regex-based
`_generate_answer(question, context)` helper; note the
`similarity_threshold` parameter is accepted but never read, exactly as in
the source. -/
def answer_question (search : List Char → Nat → DBCollection → RawQueryOut)
    (genAnswer : List Char → List Char → List Char) (store : List DBCollection)
    (question collection_name : List Char) (top_k : Nat)
    (similarity_threshold : Rat) : AnswerOut :=
  let results := query_documents search store question collection_name top_k
  if results = [] then
    ⟨false, ("No related information available in the stored documents.".toList), []⟩
  else
    let relevant_chunks := results.take top_k
    let sources := relevant_chunks.map (fun c =>
      (⟨if 200 < c.content.length then c.content.take 200 ++ ("...".toList) else c.content,
        c.metadata.filename.getD ("unknown".toList),
        c.score⟩ : SourceEntry))
    let combined_context := joinSep ("\n\n".toList) (relevant_chunks.map QueryResult.content)
    ⟨true, genAnswer question combined_context, sources⟩

/-- One `openai_client.chat.completions.create` call: system prompt, user
content, temperature, max_tokens. -/
structure LlmRequest where
  system : List Char
  user : List Char
  temperature : Rat
  max_tokens : Nat
deriving DecidableEq, Repr

/-- The sentinel string of the fallback protocol. -/
def sentinel : List Char := "NOT_FOUND_IN_DOCS".toList

/-- System prompt of the context-free (pure generative) call. -/
def directSystemPrompt : List Char :=
  ("You are a helpful assistant. Answer the user's question to the best of your knowledge. Be concise and informative.".toList)

/-- System prompt of the grounded call, instructing the sentinel protocol. -/
def contextSystemPrompt : List Char :=
  ("You are a helpful assistant. Answer the user's question based on the provided context. \nBe concise and direct. If the answer is clearly found in the context, provide it.\nIf the context does not contain relevant information to answer the question, respond with exactly: \"NOT_FOUND_IN_DOCS\" ".toList)

/-- The pure generative request (`temperature=0.7, max_tokens=500`). -/
def directRequest (query : List Char) : LlmRequest :=
  ⟨directSystemPrompt, query, (7 : Rat) / 10, 500⟩

/-- The grounded request (`temperature=0.2, max_tokens=500`) with the
`Context:\n{context}\n\nQuestion: {query}` user message. -/
def contextRequest (context query : List Char) : LlmRequest :=
  ⟨contextSystemPrompt,
    ("Context:\n".toList) ++ context ++ ("\n\nQuestion: ".toList) ++ query,
    (2 : Rat) / 10, 500⟩

/-- The dict returned by `generate_answer_with_openai`. -/
structure GenAnswerResult where
  answer : Option (List Char)
  source : Option (List Char)
  found_in_docs : Bool
deriving DecidableEq, Repr

/-- The module-level `openai_client`: configured only when the API key is
set, non-empty, and not the placeholder value.  `llm` abstracts the live
OpenAI completion collaborator (errors surface as `Except.error` with the
exception text, mirroring `except Exception as e`). -/
def openai_client (api_key : Option (List Char))
    (llm : LlmRequest → Except (List Char) (List Char)) :
    Option (LlmRequest → Except (List Char) (List Char)) :=
  match api_key with
  | none => none
  | some k =>
    if !k.isEmpty ∧ k ≠ ("your_openai_api_key_here".toList) then some llm else none

/-- `generate_answer_with_openai(query, chunks, fallback_to_gpt)` from
`VectorDB_Route.py`: null result when no client is configured; generative
fallback (or the fixed "no relevant information" answer) when the joined
chunk context is empty/whitespace; otherwise the grounded call with the
sentinel-triggered re-invocation. -/
def generate_answer_with_openai
    (client : Option (LlmRequest → Except (List Char) (List Char)))
    (query : List Char) (chunks : List QueryResult) (fallback_to_gpt : Bool) :
    GenAnswerResult :=
  match client with
  | none => ⟨none, none, false⟩
  | some llm =>
    let context := joinSep ("\n\n".toList) (chunks.map QueryResult.content)
    if pyStrip context = [] ∨ chunks.length = 0 then
      if fallback_to_gpt then
        match llm (directRequest query) with
        | Except.ok ans => ⟨some ans, some ("gpt".toList), false⟩
        | Except.error e =>
          ⟨some (("Error generating answer: ".toList) ++ e), some ("error".toList), false⟩
      else
        ⟨some ("No relevant information found in the documents.".toList),
          some ("none".toList), false⟩
    else
      match llm (contextRequest context query) with
      | Except.error e =>
        ⟨some (("Error generating answer: ".toList) ++ e), some ("error".toList), false⟩
      | Except.ok answer =>
        if containsSub answer sentinel && fallback_to_gpt then
          match llm (directRequest query) with
          | Except.ok fans => ⟨some fans, some ("gpt".toList), false⟩
          | Except.error e =>
            ⟨some (("Error generating answer: ".toList) ++ e), some ("error".toList), false⟩
        else ⟨some answer, some ("document".toList), true⟩

/-- Example collection holding one chunk with id `"aaa"`. -/
def exColl : DBCollection :=
  ⟨("default".toList),
    [⟨("aaa".toList), ("hello world".toList),
      ⟨some ("doc.txt".toList), some 0, some 0, some 11, []⟩⟩]⟩

/-- Example store holding only `exColl`. -/
def exStore : List DBCollection := [exColl]

/-- Claim C3 counterexample: deleting id `"bbb"` from `exStore` reports a
deletion count of 1 although no chunk with that id exists anywhere in the
store, refuting "returns 0 if the id is not present". -/
theorem delete_document_counts_missing_id :
    (delete_document exStore ("default".toList) (some ("bbb".toList)) none).2 = 1 ∧
      exStore.map (fun c => c.records.countP (fun r => decide (r.id = ("bbb".toList)))) = [0] :=
  ⟨by decide, by decide⟩

/-- Claim C3 (amended): `VectorDBService.delete_document` with a non-empty
`document_id` returns 1 whenever the collection exists — regardless of
whether a chunk with that id is present — and returns 0 exactly when the
collection does not exist. -/
theorem delete_document_by_id_presence_independent (store : List DBCollection)
    (collection_name did : List Char) (coll : DBCollection) (hdid : did ≠ []) :
    (getCollection store collection_name = some coll →
      (delete_document store collection_name (some did) none).2 = 1) ∧
    (getCollection store collection_name = none →
      (delete_document store collection_name (some did) none).2 = 0) := by
  have ht : pyTruthy (some did) = true := by
    cases did with
    | nil => exact absurd rfl hdid
    | cons a t => rfl
  constructor
  · intro h
    simp [delete_document, h, ht]
  · intro h
    simp [delete_document, h]

/-- Witness for the amended C3 theorem at a concrete input. -/
theorem delete_document_by_id_presence_independent_witness :
    (getCollection exStore ("default".toList) = some exColl →
      (delete_document exStore ("default".toList) (some ("bbb".toList)) none).2 = 1) ∧
    (getCollection exStore ("default".toList) = none →
      (delete_document exStore ("default".toList) (some ("bbb".toList)) none).2 = 0) :=
  delete_document_by_id_presence_independent exStore ("default".toList) ("bbb".toList)
    exColl (by decide)

/-- Claim C4: `VectorDBService.answer_question` never reads its
`similarity_threshold` parameter, so its result is identical for any two
threshold values (for every search engine, answer synthesiser, store,
question, collection and `top_k`). -/
theorem answer_question_ignores_similarity_threshold
    (search : List Char → Nat → DBCollection → RawQueryOut)
    (genAnswer : List Char → List Char → List Char) (store : List DBCollection)
    (question collection_name : List Char) (top_k : Nat) (t1 t2 : Rat) :
    answer_question search genAnswer store question collection_name top_k t1 =
      answer_question search genAnswer store question collection_name top_k t2 := rfl

/-- Claim C5: with non-empty joined context, a first (grounded) response
containing the sentinel `NOT_FOUND_IN_DOCS`, and fallback enabled, the
collaborator is re-invoked with the bare query (no context) and the result
is reclassified to the generative source: `source = "gpt"`,
`found_in_docs = false`, answer taken from the second call. -/
theorem generate_answer_sentinel_fallback
    (llm : LlmRequest → Except (List Char) (List Char)) (query : List Char)
    (chunks : List QueryResult) (resp fans : List Char)
    (hctx : pyStrip (joinSep ("\n\n".toList) (chunks.map QueryResult.content)) ≠ [])
    (hresp : llm (contextRequest (joinSep ("\n\n".toList) (chunks.map QueryResult.content))
      query) = Except.ok resp)
    (hsent : containsSub resp sentinel = true)
    (hfb : llm (directRequest query) = Except.ok fans) :
    generate_answer_with_openai (some llm) query chunks true =
      ⟨some fans, some ("gpt".toList), false⟩ := by
  have hcond : ¬ (pyStrip (joinSep ("\n\n".toList) (chunks.map QueryResult.content)) = [] ∨
      chunks.length = 0) := by
    rintro (h | h)
    · exact hctx h
    · apply hctx
      rw [List.length_eq_zero.mp h]
      rfl
  simp only [generate_answer_with_openai]
  rw [if_neg hcond, hresp]
  simp [hsent, hfb]

/-- Witness collaborator: answers the grounded call (temperature 0.2) with
the bare sentinel and any other call with "Paris". -/
def exLlm : LlmRequest → Except (List Char) (List Char) := fun req =>
  if req.temperature = (2 : Rat) / 10 then Except.ok sentinel
  else Except.ok ("Paris".toList)

/-- Witness retrieved chunk list with non-empty content. -/
def exChunks : List QueryResult :=
  [⟨("id1".toList), ("Paris is the capital of France.".toList), 1 / 2,
    ⟨none, none, none, none, []⟩⟩]

/-- Witness for C5: the grounded response is exactly the sentinel, fallback
is on, and the result is the generative answer with `source = "gpt"`. -/
theorem generate_answer_sentinel_fallback_witness :
    generate_answer_with_openai (some exLlm) ("capital of France?".toList) exChunks true =
      ⟨some ("Paris".toList), some ("gpt".toList), false⟩ :=
  generate_answer_sentinel_fallback exLlm ("capital of France?".toList) exChunks
    sentinel ("Paris".toList) (by decide) (by norm_num [exLlm, contextRequest])
    (by decide) (by norm_num [exLlm, directRequest])

/-- Claim C6: with an empty retrieved-chunk sequence (or chunks whose joined
content strips to empty), fallback disabled returns the fixed
no-relevant-information answer with `source = "none"`, and fallback enabled
invokes the collaborator on the bare query and returns `source = "gpt"`. -/
theorem generate_answer_empty_context
    (llm : LlmRequest → Except (List Char) (List Char)) (query fans : List Char)
    (chunks : List QueryResult)
    (hempty : chunks = [] ∨
      pyStrip (joinSep ("\n\n".toList) (chunks.map QueryResult.content)) = [])
    (hfb : llm (directRequest query) = Except.ok fans) :
    generate_answer_with_openai (some llm) query chunks false =
      ⟨some ("No relevant information found in the documents.".toList),
        some ("none".toList), false⟩ ∧
    generate_answer_with_openai (some llm) query chunks true =
      ⟨some fans, some ("gpt".toList), false⟩ := by
  have hcond : pyStrip (joinSep ("\n\n".toList) (chunks.map QueryResult.content)) = [] ∨
      chunks.length = 0 := by
    rcases hempty with rfl | h
    · exact Or.inr rfl
    · exact Or.inl h
  constructor
  · simp only [generate_answer_with_openai]
    rw [if_pos hcond]
    rfl
  · simp only [generate_answer_with_openai]
    rw [if_pos hcond]
    simp [hfb]

/-- Witness for C6 at an empty chunk list. -/
theorem generate_answer_empty_context_witness :
    generate_answer_with_openai (some exLlm) ("anything".toList) [] false =
      ⟨some ("No relevant information found in the documents.".toList),
        some ("none".toList), false⟩ ∧
    generate_answer_with_openai (some exLlm) ("anything".toList) [] true =
      ⟨some ("Paris".toList), some ("gpt".toList), false⟩ :=
  generate_answer_empty_context exLlm ("anything".toList) ("Paris".toList) []
    (Or.inl rfl) (by norm_num [exLlm, directRequest])

/-- Claim C7: `VectorDBService.query_documents` returns the empty list (and
raises no error — the missing-collection exception is caught) whenever the
collection does not exist, or exists but the search yields no hits. -/
theorem query_documents_empty_on_missing_or_no_match
    (search : List Char → Nat → DBCollection → RawQueryOut) (store : List DBCollection)
    (q cn : List Char) (k : Nat) (coll : DBCollection)
    (h : getCollection store cn = none ∨
      (getCollection store cn = some coll ∧
        ((search q k coll).ids = [] ∨ (search q k coll).ids.head? = some []))) :
    query_documents search store q cn k = [] := by
  rcases h with h | ⟨h, hids⟩
  · simp [query_documents, h]
  · simp only [query_documents, h]
    cases hcase : (search q k coll).ids with
    | nil => rfl
    | cons ids0 rest =>
      rcases hids with hids | hids
      · rw [hcase] at hids
        exact absurd hids (by simp)
      · rw [hcase] at hids
        simp only [List.head?] at hids
        injection hids with hids
        simp [hids]

/-- Witness search collaborator returning no hits. -/
def exSearchEmpty : List Char → Nat → DBCollection → RawQueryOut :=
  fun _ _ _ => ⟨[[]], [], [], []⟩

/-- Witness for C7: an existing collection whose search yields no hits. -/
theorem query_documents_empty_on_missing_or_no_match_witness :
    query_documents exSearchEmpty exStore ("any query".toList) ("default".toList) 5 = [] :=
  query_documents_empty_on_missing_or_no_match exSearchEmpty exStore
    ("any query".toList) ("default".toList) 5 exColl
    (Or.inr ⟨by decide, Or.inr rfl⟩)

/-- Claim C8 counterexample: `exWsText` is whitespace-only, yet
`add_document` on it with valid parameters `chunk_size = 10`,
`chunk_overlap = 9` never returns at all (the chunking loop diverges), so it
does not return `(0, [])`. -/
theorem add_document_hangs_on_whitespace :
    (∀ c ∈ exWsText, pyIsSpace c) ∧
      AddDocumentDiverges (fun _ => []) exWsText ("w.txt".toList) ("default".toList)
        10 9 [] exStore := by
  refine ⟨by decide, fun fuel => ?_⟩
  unfold add_document
  rw [chunk_text_diverges_exWs fuel]

/-- Claim C8 (amended): whenever the chunking loop terminates — which it
always does for empty text, but not for every whitespace-only text —
`add_document` on empty/whitespace-only text returns `(0, [])` and leaves
the store untouched, inserting nothing. -/
theorem add_document_ws_returns_zero (idGen : Nat → List Char)
    (text filename collection_name : List Char) (cs ov : Nat)
    (md : List (List Char × List Char)) (fuel : Nat) (store : List DBCollection)
    (hws : ∀ c ∈ text, pyIsSpace c)
    (hterm : add_document idGen text filename collection_name cs ov md fuel store ≠ none) :
    add_document idGen text filename collection_name cs ov md fuel store =
      some (store, 0, []) := by
  unfold add_document at hterm ⊢
  cases hct : chunk_text text cs ov fuel with
  | none => rw [hct] at hterm; exact absurd rfl hterm
  | some chunks =>
    have hnil := chunk_text_ws text cs ov fuel chunks hws hct
    subst hnil
    simp [hct]

/-- Witness for the amended C8 theorem: three spaces, which the loop does
survive, produce `(0, [])` and an unchanged store. -/
theorem add_document_ws_returns_zero_witness :
    add_document (fun _ => []) ("   ".toList) ("w.txt".toList) ("default".toList)
      10 9 [] 1 exStore = some (exStore, 0, []) :=
  add_document_ws_returns_zero (fun _ => []) ("   ".toList) ("w.txt".toList)
    ("default".toList) 10 9 [] 1 exStore (by decide) (by decide)

/-- Claim C10: when no OpenAI client is configured (key unset, empty, or the
placeholder), `generate_answer_with_openai` returns
`{answer: None, source: None, found_in_docs: False}` for every query, chunk
list and both fallback flags — a null result rather than the `"none"` or
`"error"` source kinds used elsewhere. -/
theorem generate_answer_null_when_unconfigured (api_key : Option (List Char))
    (llm : LlmRequest → Except (List Char) (List Char)) (query : List Char)
    (chunks : List QueryResult) (fb : Bool)
    (h : api_key = none ∨ api_key = some ("your_openai_api_key_here".toList) ∨
      api_key = some []) :
    generate_answer_with_openai (openai_client api_key llm) query chunks fb =
      ⟨none, none, false⟩ := by
  have hc : openai_client api_key llm = none := by
    rcases h with rfl | rfl | rfl
    · rfl
    · simp [openai_client]
    · simp [openai_client]
  rw [hc]
  rfl

/-- Witness for C10 with an unset key. -/
theorem generate_answer_null_when_unconfigured_witness :
    generate_answer_with_openai (openai_client none exLlm) ("q".toList) exChunks true =
      ⟨none, none, false⟩ :=
  generate_answer_null_when_unconfigured none exLlm ("q".toList) exChunks true (Or.inl rfl)
